import Mathlib

/-!
Verification of the monic monitoring agent (Go sources) against its
natural-language specification.  The Go code is shallowly embedded:
`time.Time` instants are modeled as integers (the zero value `time.Time` is
`0`, `a.After(b)` is `b < a`), Go `float64` metric values are modeled as
rationals, Go maps are modeled as association lists, and the stateful
methods become pure functions returning the updated receiver.
-/

set_option linter.unusedVariables false

namespace Monic

/-- Go `time.Time.After`: strict comparison of instants. -/
def timeAfter (a b : Int) : Bool := b < a

/-- Embedding of `types.AlertState` (types/types.go).  `Type'` stands for the
Go field `Type` (a Lean keyword).  `ConsecutiveChecks` is a Go `int` that the
code only ever sets to `0`, `1` or increments, modeled as `Nat`. -/
structure AlertState where
  Type' : String
  CurrentState : String
  ConsecutiveChecks : Nat
  LastAlertSent : Int
  LastStateChange : Int
deriving DecidableEq

/-- Embedding of `types.Alert` (types/types.go). -/
structure Alert where
  Type' : String
  Message : String
  Level : String
  Timestamp : Int
deriving DecidableEq

/-- Embedding of `StateManager.shouldSendAlert` (alert/alert.go).  The `now`
parameter is unused, exactly as in the Go source. -/
def shouldSendAlert (state : AlertState) (now : Int) : Bool :=
  if state.CurrentState = "ok" then
    state.ConsecutiveChecks == 1 && timeAfter state.LastAlertSent state.LastStateChange
  else if state.ConsecutiveChecks < 3 then
    false
  else if timeAfter state.LastAlertSent state.LastStateChange then
    false
  else
    true

/-- Embedding of `StateManager.updateState` (alert/alert.go).  The Go method
mutates `state` through a pointer and returns an optional alert; here the
updated state is returned alongside. -/
def updateState (state : AlertState) (alertType currentState message : String)
    (now : Int) : AlertState × Option Alert :=
  let state1 :=
    if state.CurrentState ≠ currentState then
      { state with CurrentState := currentState, ConsecutiveChecks := 1,
                   LastStateChange := now }
    else
      { state with ConsecutiveChecks := state.ConsecutiveChecks + 1 }
  if shouldSendAlert state1 now then
    let state2 := { state1 with LastAlertSent := now }
    let level := if currentState = "critical" then "critical" else "warning"
    (state2, some { Type' := alertType, Message := message, Level := level,
                    Timestamp := now })
  else
    (state1, none)

/-- The fresh state built by `StateManager.getOrCreateState` (alert/alert.go):
`CurrentState = "ok"`, `ConsecutiveChecks = 0`, zero `LastAlertSent`,
`LastStateChange = time.Now()`. -/
def initAlertState (alertType : String) (now : Int) : AlertState :=
  { Type' := alertType, CurrentState := "ok", ConsecutiveChecks := 0,
    LastAlertSent := 0, LastStateChange := now }

/-- One classified sample fed to the state machine for a fixed key: the
classification (`"ok"` or `"critical"`), the message, and the instant of the
evaluation. -/
structure Eval where
  cls : String
  msg : String
  time : Int
deriving DecidableEq

/-- A sequence of evaluations for one alert key, each going through
`updateState`; the emitted alerts are collected in order. -/
def runUpdates (s : AlertState) (key : String) (evals : List Eval) :
    AlertState × List Alert :=
  match evals with
  | [] => (s, [])
  | e :: rest =>
      let p := updateState s key e.cls e.msg e.time
      let q := runUpdates p.1 key rest
      (q.1, p.2.toList ++ q.2)

example :
    runUpdates (initAlertState "cpu" 0) "cpu"
      [⟨"critical", "a", 1⟩, ⟨"critical", "b", 2⟩, ⟨"critical", "c", 3⟩,
       ⟨"critical", "d", 4⟩] =
    (⟨"cpu", "critical", 4, 3, 1⟩,
     [⟨"cpu", "c", "critical", 3⟩]) := by decide

example :
    runUpdates (initAlertState "k" 0) "k"
      [⟨"critical", "a", 1⟩, ⟨"critical", "b", 2⟩, ⟨"critical", "c", 3⟩,
       ⟨"ok", "r", 4⟩, ⟨"ok", "r", 5⟩] =
    (⟨"k", "ok", 2, 3, 4⟩, [⟨"k", "c", "critical", 3⟩]) := by decide

/-- A `"critical"` evaluation on a key whose stored state is not `"critical"`
is a transition: the counter resets to 1, so the 3-consecutive-checks gate
keeps `shouldSendAlert` false and no alert is returned. -/
lemma updateState_crit_transition (s : AlertState) (k m : String) (now : Int)
    (h : s.CurrentState ≠ "critical") :
    updateState s k "critical" m now =
      ({ s with CurrentState := "critical", ConsecutiveChecks := 1,
                LastStateChange := now }, none) := by
  simp [updateState, shouldSendAlert, h]

/-- A `"critical"` evaluation with the state already `"critical"` and fewer
than 3 consecutive checks after the increment returns no alert. -/
lemma updateState_crit_cont (s : AlertState) (k m : String) (now : Int)
    (hc : s.CurrentState = "critical") (hlt : s.ConsecutiveChecks + 1 < 3) :
    updateState s k "critical" m now =
      ({ s with ConsecutiveChecks := s.ConsecutiveChecks + 1 }, none) := by
  simp [updateState, shouldSendAlert, hc, hlt]

/-- A `"critical"` evaluation with the state already `"critical"`, the
incremented counter at least 3, and no alert sent since the last state change
fires the critical alert and stamps `LastAlertSent`. -/
lemma updateState_crit_fire (s : AlertState) (k m : String) (now : Int)
    (hc : s.CurrentState = "critical") (hge : 3 ≤ s.ConsecutiveChecks + 1)
    (hno : s.LastAlertSent ≤ s.LastStateChange) :
    updateState s k "critical" m now =
      ({ s with ConsecutiveChecks := s.ConsecutiveChecks + 1,
                LastAlertSent := now },
       some { Type' := k, Message := m, Level := "critical",
              Timestamp := now }) := by
  have h1 : ¬ s.ConsecutiveChecks + 1 < 3 := Nat.not_lt.mpr hge
  have h2 : ¬ s.LastStateChange < s.LastAlertSent := Int.not_lt.mpr hno
  simp [updateState, shouldSendAlert, hc, h1, timeAfter, h2]

/-- Once an alert has been sent within the current `"critical"` episode
(`LastStateChange < LastAlertSent`), `shouldSendAlert` stays false. -/
lemma shouldSendAlert_crit_suppressed (s : AlertState) (now : Int)
    (hc : s.CurrentState = "critical")
    (hsupp : s.LastStateChange < s.LastAlertSent) :
    shouldSendAlert s now = false := by
  simp [shouldSendAlert, hc, timeAfter, hsupp]

/-- A `"critical"` evaluation in an already-alerted `"critical"` episode only
increments the counter and returns no alert. -/
lemma updateState_crit_suppressed (s : AlertState) (k m : String) (now : Int)
    (hc : s.CurrentState = "critical")
    (hsupp : s.LastStateChange < s.LastAlertSent) :
    updateState s k "critical" m now =
      ({ s with ConsecutiveChecks := s.ConsecutiveChecks + 1 }, none) := by
  have hs : shouldSendAlert
      ⟨s.Type', "critical", s.ConsecutiveChecks + 1, s.LastAlertSent,
        s.LastStateChange⟩ now = false :=
    shouldSendAlert_crit_suppressed _ now rfl hsupp
  simp [updateState, hc, hs]

/-- In an already-alerted `"critical"` episode, an all-`"critical"` run of
evaluations emits nothing at all. -/
lemma run_crit_suppressed (s : AlertState) (k : String) (evals : List Eval)
    (hall : ∀ e ∈ evals, e.cls = "critical")
    (hc : s.CurrentState = "critical")
    (hsupp : s.LastStateChange < s.LastAlertSent) :
    (runUpdates s k evals).2 = [] := by
  induction evals generalizing s with
  | nil => rfl
  | cons e rest ih =>
    have he : e.cls = "critical" := hall e (by simp)
    have hstep := updateState_crit_suppressed s k e.msg e.time hc hsupp
    simp only [runUpdates, he, hstep, Option.toList_none, List.nil_append]
    exact ih _ (fun e' h' => hall e' (List.mem_cons_of_mem _ h')) hc hsupp

/-- Both timestamp fields of the state after one `updateState` step are
either the old field or `now`. -/
lemma updateState_fields_cases (s : AlertState) (k c m : String) (now : Int) :
    ((updateState s k c m now).1.LastStateChange = s.LastStateChange ∨
      (updateState s k c m now).1.LastStateChange = now) ∧
    ((updateState s k c m now).1.LastAlertSent = s.LastAlertSent ∨
      (updateState s k c m now).1.LastAlertSent = now) := by
  unfold updateState
  by_cases h : s.CurrentState ≠ c <;> simp only [h, if_true, if_false, ite_not] <;>
    split <;> simp

/-- The timestamp fields of the state after a run stay strictly below any
bound that dominates the starting fields and all evaluation times. -/
lemma runUpdates_fields_bound (s : AlertState) (k : String) (evals : List Eval)
    (T : Int) (ht : ∀ e ∈ evals, e.time < T)
    (h1 : s.LastAlertSent < T) (h2 : s.LastStateChange < T) :
    (runUpdates s k evals).1.LastAlertSent < T ∧
      (runUpdates s k evals).1.LastStateChange < T := by
  induction evals generalizing s with
  | nil => exact ⟨h1, h2⟩
  | cons e rest ih =>
    have hcases := updateState_fields_cases s k e.cls e.msg e.time
    have het : e.time < T := ht e (by simp)
    simp only [runUpdates]
    apply ih _ (fun e' h' => ht e' (List.mem_cons_of_mem _ h'))
    · rcases hcases.2 with h | h <;> rw [h] <;> [exact h1; exact het]
    · rcases hcases.1 with h | h <;> rw [h] <;> [exact h2; exact het]

/-- Over any all-`"critical"` run with strictly increasing evaluation times
all later than the state's recorded `LastStateChange`, at most one alert is
returned, and any returned alert has level `"critical"`. -/
lemma run_crit_once (s : AlertState) (k : String) (evals : List Eval)
    (hall : ∀ e ∈ evals, e.cls = "critical")
    (hpw : List.Pairwise (· < ·) (evals.map Eval.time))
    (hgt : ∀ e ∈ evals, s.LastStateChange < e.time) :
    (runUpdates s k evals).2.length ≤ 1 ∧
      ∀ a ∈ (runUpdates s k evals).2, a.Level = "critical" := by
  induction evals generalizing s with
  | nil => simp [runUpdates]
  | cons e rest ih =>
    have he : e.cls = "critical" := hall e (by simp)
    have hallr : ∀ e' ∈ rest, e'.cls = "critical" :=
      fun e' h' => hall e' (by simp [h'])
    rw [List.map_cons, List.pairwise_cons] at hpw
    simp only [runUpdates, he]
    by_cases hc : s.CurrentState = "critical"
    · rcases Nat.lt_or_ge (s.ConsecutiveChecks + 1) 3 with hlt | hge
      · rw [updateState_crit_cont s k e.msg e.time hc hlt]
        simp only [Option.toList_none, List.nil_append]
        exact ih _ hallr hpw.2 (fun e' h' => hgt e' (List.mem_cons_of_mem _ h'))
      · rcases Int.le_or_lt s.LastAlertSent s.LastStateChange with hno | hyes
        · rw [updateState_crit_fire s k e.msg e.time hc hge hno]
          have hz : (runUpdates
              { s with ConsecutiveChecks := s.ConsecutiveChecks + 1,
                       LastAlertSent := e.time } k rest).2 = [] :=
            run_crit_suppressed _ k rest hallr hc (hgt e (by simp))
          simp [hz]
        · rw [updateState_crit_suppressed s k e.msg e.time hc hyes]
          simp only [Option.toList_none, List.nil_append]
          exact ih _ hallr hpw.2 (fun e' h' => hgt e' (List.mem_cons_of_mem _ h'))
    · rw [updateState_crit_transition s k e.msg e.time hc]
      simp only [Option.toList_none, List.nil_append]
      exact ih _ hallr hpw.2
        (fun e' h' => hpw.1 e'.time (List.mem_map_of_mem Eval.time h'))

/-- C1: for every alert key and every sequence of evaluations through
`StateManager.updateState` (an arbitrary prefix `pre` followed by an
unhealthy episode `block`, i.e. a run of consecutive evaluations classified
`"critical"`), with strictly increasing evaluation instants, at most one
alert is returned during the episode, and every alert returned during it has
level `"critical"` — regardless of the episode's length.  Since this holds
for every all-`"critical"` contiguous block, it holds in particular for
maximal ones. -/
theorem stateManager_C1_one_critical_per_episode
    (k : String) (t0 : Int) (pre block : List Eval)
    (h0 : 0 ≤ t0)
    (hall : ∀ e ∈ block, e.cls = "critical")
    (hpw : List.Pairwise (· < ·) (t0 :: (pre ++ block).map Eval.time)) :
    ((runUpdates (runUpdates (initAlertState k t0) k pre).1 k block).2).length ≤ 1 ∧
      ∀ a ∈ (runUpdates (runUpdates (initAlertState k t0) k pre).1 k block).2,
        a.Level = "critical" := by
  rw [List.pairwise_cons] at hpw
  obtain ⟨ht0, hpw2⟩ := hpw
  rw [List.map_append, List.pairwise_append] at hpw2
  obtain ⟨hppre, hpblock, hcross⟩ := hpw2
  refine run_crit_once _ k block hall hpblock ?_
  intro e he
  have hmem : e.time ∈ block.map Eval.time := List.mem_map_of_mem Eval.time he
  have htime : t0 < e.time := by
    refine ht0 e.time ?_
    rw [List.map_append]
    exact List.mem_append_right _ hmem
  have h1 : (initAlertState k t0).LastAlertSent < e.time := by
    show (0 : Int) < e.time
    omega
  have h2 : (initAlertState k t0).LastStateChange < e.time := htime
  exact (runUpdates_fields_bound (initAlertState k t0) k pre e.time
    (fun e' h' => hcross e'.time (List.mem_map_of_mem Eval.time h') e.time hmem)
    h1 h2).2

/-- Concrete episode used to instantiate the C1 theorem. -/
def c1block : List Eval :=
  [⟨"critical", "m1", 1⟩, ⟨"critical", "m2", 2⟩, ⟨"critical", "m3", 3⟩,
   ⟨"critical", "m4", 4⟩, ⟨"critical", "m5", 5⟩]

theorem stateManager_C1_witness :
    ((0 : Int) ≤ 0 ∧ (∀ e ∈ c1block, e.cls = "critical") ∧
      List.Pairwise (· < ·) ((0 : Int) :: ([] ++ c1block).map Eval.time)) ∧
    (((runUpdates (runUpdates (initAlertState "cpu" 0) "cpu" []).1 "cpu"
        c1block).2).length ≤ 1 ∧
      ∀ a ∈ (runUpdates (runUpdates (initAlertState "cpu" 0) "cpu" []).1 "cpu"
        c1block).2, a.Level = "critical") :=
  ⟨⟨by decide, by decide, by decide⟩,
   stateManager_C1_one_critical_per_episode "cpu" 0 [] c1block (by decide)
     (by decide) (by decide)⟩

/-- C2: a critical alert is returned by `updateState` only when the updated
`ConsecutiveChecks` has reached at least 3 and no alert has been sent since
the episode began (`LastAlertSent` not after `LastStateChange`); a critical
episode shorter than 3 consecutive critical evaluations returns no alert at
all; and on a run of 3 or more consecutive critical evaluations (with
increasing instants, starting from a non-critical stored state whose
`LastAlertSent` does not postdate the first instant) the single alert is
returned exactly at the 3rd evaluation. -/
theorem stateManager_C2_debounce_three :
    (∀ (s : AlertState) (k m : String) (now : Int) (a : Alert),
        (updateState s k "critical" m now).2 = some a →
        3 ≤ (updateState s k "critical" m now).1.ConsecutiveChecks ∧
          s.LastAlertSent ≤ s.LastStateChange) ∧
    (∀ (s : AlertState) (k : String) (evals : List Eval),
        s.CurrentState ≠ "critical" → (∀ e ∈ evals, e.cls = "critical") →
        evals.length < 3 → (runUpdates s k evals).2 = []) ∧
    (∀ (s : AlertState) (k : String) (e1 e2 e3 : Eval) (rest : List Eval),
        s.CurrentState ≠ "critical" →
        (∀ e ∈ e1 :: e2 :: e3 :: rest, e.cls = "critical") →
        List.Pairwise (· < ·) ((e1 :: e2 :: e3 :: rest).map Eval.time) →
        s.LastAlertSent ≤ e1.time →
        (runUpdates s k (e1 :: e2 :: e3 :: rest)).2 =
          [{ Type' := k, Message := e3.msg, Level := "critical",
             Timestamp := e3.time }]) := by
  refine ⟨?_, ?_, ?_⟩
  · intro s k m now a hsome
    by_cases hc : s.CurrentState = "critical"
    · rcases Nat.lt_or_ge (s.ConsecutiveChecks + 1) 3 with hlt | hge
      · rw [updateState_crit_cont s k m now hc hlt] at hsome
        simp at hsome
      · rcases Int.le_or_lt s.LastAlertSent s.LastStateChange with hno | hyes
        · refine ⟨?_, hno⟩
          rw [updateState_crit_fire s k m now hc hge hno]
          exact hge
        · rw [updateState_crit_suppressed s k m now hc hyes] at hsome
          simp at hsome
    · rw [updateState_crit_transition s k m now hc] at hsome
      simp at hsome
  · intro s k evals hcur hall hlen
    match evals with
    | [] => rfl
    | [a] =>
      have ha := hall a (by simp)
      have step1 : updateState s k "critical" a.msg a.time =
          (⟨s.Type', "critical", 1, s.LastAlertSent, a.time⟩, none) :=
        updateState_crit_transition s k a.msg a.time hcur
      simp [runUpdates, ha, step1]
    | [a, b] =>
      have ha := hall a (by simp)
      have hb := hall b (by simp)
      have step1 : updateState s k "critical" a.msg a.time =
          (⟨s.Type', "critical", 1, s.LastAlertSent, a.time⟩, none) :=
        updateState_crit_transition s k a.msg a.time hcur
      have step2 : updateState
          (⟨s.Type', "critical", 1, s.LastAlertSent, a.time⟩ : AlertState)
          k "critical" b.msg b.time =
          (⟨s.Type', "critical", 2, s.LastAlertSent, a.time⟩, none) :=
        updateState_crit_cont _ k b.msg b.time rfl (by norm_num)
      simp [runUpdates, ha, hb, step1, step2]
    | a :: b :: c :: r =>
      simp only [List.length_cons] at hlen
      omega
  · intro s k e1 e2 e3 rest hcur hall hpw hsent
    have h1 := hall e1 (by simp)
    have h2 := hall e2 (by simp)
    have h3 := hall e3 (by simp)
    have hallr : ∀ e ∈ rest, e.cls = "critical" := by
      intro e he
      exact hall e (by simp [he])
    have h13 : e1.time < e3.time := by
      rw [List.map_cons, List.pairwise_cons] at hpw
      exact hpw.1 e3.time (by simp)
    have step1 : updateState s k "critical" e1.msg e1.time =
        (⟨s.Type', "critical", 1, s.LastAlertSent, e1.time⟩, none) :=
      updateState_crit_transition s k e1.msg e1.time hcur
    have step2 : updateState
        (⟨s.Type', "critical", 1, s.LastAlertSent, e1.time⟩ : AlertState)
        k "critical" e2.msg e2.time =
        (⟨s.Type', "critical", 2, s.LastAlertSent, e1.time⟩, none) :=
      updateState_crit_cont _ k e2.msg e2.time rfl (by norm_num)
    have step3 : updateState
        (⟨s.Type', "critical", 2, s.LastAlertSent, e1.time⟩ : AlertState)
        k "critical" e3.msg e3.time =
        (⟨s.Type', "critical", 3, e3.time, e1.time⟩,
         some ⟨k, e3.msg, "critical", e3.time⟩) :=
      updateState_crit_fire _ k e3.msg e3.time rfl (by norm_num) hsent
    have step4 : (runUpdates
        (⟨s.Type', "critical", 3, e3.time, e1.time⟩ : AlertState) k rest).2 =
        [] :=
      run_crit_suppressed _ k rest hallr rfl h13
    simp [runUpdates, h1, h2, h3, step1, step2, step3, step4]

theorem stateManager_C2_witness :
    ((initAlertState "mem" 0).CurrentState ≠ "critical" ∧
      (∀ e ∈ [(⟨"critical", "b1", 1⟩ : Eval), ⟨"critical", "b2", 2⟩,
          ⟨"critical", "b3", 3⟩], e.cls = "critical") ∧
      List.Pairwise (· < ·)
        (([(⟨"critical", "b1", 1⟩ : Eval), ⟨"critical", "b2", 2⟩,
           ⟨"critical", "b3", 3⟩]).map Eval.time) ∧
      (initAlertState "mem" 0).LastAlertSent ≤
        (⟨"critical", "b1", 1⟩ : Eval).time) ∧
    (runUpdates (initAlertState "mem" 0) "mem"
        [⟨"critical", "b1", 1⟩, ⟨"critical", "b2", 2⟩,
         ⟨"critical", "b3", 3⟩]).2 =
      [{ Type' := "mem", Message := "b3", Level := "critical",
         Timestamp := 3 }] :=
  ⟨⟨by decide, by decide, by decide, by decide⟩,
   stateManager_C2_debounce_three.2.2 (initAlertState "mem" 0) "mem"
     ⟨"critical", "b1", 1⟩ ⟨"critical", "b2", 2⟩ ⟨"critical", "b3", 3⟩ []
     (by decide) (by decide) (by decide) (by decide)⟩

/-- C3: `updateState` sets `ConsecutiveChecks` to 1 and assigns
`LastStateChange := now` exactly at evaluations where the classified state
differs from the stored `CurrentState`; at all other evaluations it
increments the counter by 1 (hence strictly increases it) and leaves
`LastStateChange` untouched. -/
theorem updateState_C3_counter (s : AlertState) (k cls m : String)
    (now : Int) :
    (cls ≠ s.CurrentState →
      (updateState s k cls m now).1.ConsecutiveChecks = 1 ∧
        (updateState s k cls m now).1.LastStateChange = now ∧
        (updateState s k cls m now).1.CurrentState = cls) ∧
    (cls = s.CurrentState →
      (updateState s k cls m now).1.ConsecutiveChecks =
          s.ConsecutiveChecks + 1 ∧
        (updateState s k cls m now).1.LastStateChange = s.LastStateChange ∧
        (updateState s k cls m now).1.CurrentState = s.CurrentState) := by
  constructor
  · intro h
    have h' : s.CurrentState ≠ cls := fun e => h e.symm
    unfold updateState
    rw [if_pos h']
    by_cases hb : shouldSendAlert
        ⟨s.Type', cls, 1, s.LastAlertSent, now⟩ now = true <;>
      simp [hb]
  · intro h
    have h' : ¬ s.CurrentState ≠ cls := by simp [h.symm]
    unfold updateState
    rw [if_neg h']
    by_cases hb : shouldSendAlert
        ⟨s.Type', s.CurrentState, s.ConsecutiveChecks + 1, s.LastAlertSent,
          s.LastStateChange⟩ now = true <;>
      simp [hb]

theorem updateState_C3_witness :
    ("critical" ≠ (initAlertState "cpu" 0).CurrentState ∧
      ((updateState (initAlertState "cpu" 0) "cpu" "critical" "m" 7).1.ConsecutiveChecks = 1 ∧
        (updateState (initAlertState "cpu" 0) "cpu" "critical" "m" 7).1.LastStateChange = 7 ∧
        (updateState (initAlertState "cpu" 0) "cpu" "critical" "m" 7).1.CurrentState = "critical")) :=
  ⟨by decide,
   (updateState_C3_counter (initAlertState "cpu" 0) "cpu" "critical" "m" 7).1
     (by decide)⟩

/-- C4 (code-bug evidence): on the sequence critical@1, critical@2,
critical@3, ok@4, ok@5 for one key starting from the fresh state, the code
returns exactly one alert — the critical one at instant 3 — and returns NO
recovery alert at the first `"ok"` evaluation (instant 4), because
`updateState` assigns `LastStateChange := now` on the transition immediately
before `shouldSendAlert` tests `LastAlertSent.After(LastStateChange)`, so the
recovery condition can never hold under a monotone clock.  The claim (and
the code's own comment) say exactly one recovery alert should be returned at
instant 4. -/
theorem stateManager_C4_no_recovery_alert :
    runUpdates (initAlertState "http_web" 0) "http_web"
      [⟨"critical", "probe failed", 1⟩, ⟨"critical", "probe failed", 2⟩,
       ⟨"critical", "probe failed", 3⟩, ⟨"ok", "recovered", 4⟩,
       ⟨"ok", "recovered", 5⟩] =
    (⟨"http_web", "ok", 2, 3, 4⟩,
     [⟨"http_web", "probe failed", "critical", 3⟩]) := by decide

/-! ### History store: `StorageManager` (src/unnamed/part_010, package server)

The four category entry types (`types.Alert`, `types.SystemStats`,
`types.HTTPCheckResult`, `types.DockerContainerStats`) are opaque to the
store, so the embedding is polymorphic in them.  The per-category mutexes
guard the slice updates below; the sequential embedding captures the
serialized order of the writes. -/

structure StorageManager (A S H D : Type) where
  alerts : List A
  statsHistory : List S
  httpHistory : List H
  dockerHistory : List D
  maxHistorySize : Nat

/-- Embedding of `NewStorageManager`: a non-positive capacity defaults
to 100. -/
def NewStorageManager (A S H D : Type) (maxHistorySize : Int) :
    StorageManager A S H D :=
  let m : Int := if maxHistorySize ≤ 0 then 100 else maxHistorySize
  { alerts := [], statsHistory := [], httpHistory := [], dockerHistory := [],
    maxHistorySize := m.toNat }

/-- Embedding of `StorageManager.AddAlert`: append one entry, evict one from
the head if over capacity. -/
def AddAlert {A S H D : Type} (sm : StorageManager A S H D) (alert : A) :
    StorageManager A S H D :=
  let alerts := sm.alerts ++ [alert]
  let alerts :=
    if sm.maxHistorySize < alerts.length then alerts.drop 1 else alerts
  { sm with alerts := alerts }

/-- Embedding of `StorageManager.AddAlerts`: append a batch, keep the most
recent `maxHistorySize` entries if over capacity. -/
def AddAlerts {A S H D : Type} (sm : StorageManager A S H D)
    (newAlerts : List A) : StorageManager A S H D :=
  if newAlerts.length = 0 then sm
  else
    let alerts := sm.alerts ++ newAlerts
    let alerts :=
      if sm.maxHistorySize < alerts.length then
        alerts.drop (alerts.length - sm.maxHistorySize)
      else alerts
    { sm with alerts := alerts }

/-- Embedding of `StorageManager.AddSystemStats`. -/
def AddSystemStats {A S H D : Type} (sm : StorageManager A S H D)
    (stats : S) : StorageManager A S H D :=
  let statsHistory := sm.statsHistory ++ [stats]
  let statsHistory :=
    if sm.maxHistorySize < statsHistory.length then statsHistory.drop 1
    else statsHistory
  { sm with statsHistory := statsHistory }

/-- Embedding of `StorageManager.AddHTTPCheckResult`. -/
def AddHTTPCheckResult {A S H D : Type} (sm : StorageManager A S H D)
    (result : H) : StorageManager A S H D :=
  let httpHistory := sm.httpHistory ++ [result]
  let httpHistory :=
    if sm.maxHistorySize < httpHistory.length then httpHistory.drop 1
    else httpHistory
  { sm with httpHistory := httpHistory }

/-- Embedding of `StorageManager.AddDockerContainerStats`. -/
def AddDockerContainerStats {A S H D : Type} (sm : StorageManager A S H D)
    (stats : List D) : StorageManager A S H D :=
  if stats.length = 0 then sm
  else
    let dockerHistory := sm.dockerHistory ++ stats
    let dockerHistory :=
      if sm.maxHistorySize < dockerHistory.length then
        dockerHistory.drop (dockerHistory.length - sm.maxHistorySize)
      else dockerHistory
    { sm with dockerHistory := dockerHistory }

/-- One append operation on the storage manager, covering every mutating
entry point of every category. -/
inductive StoreOp (A S H D : Type) where
  | addAlert (a : A)
  | addAlerts (xs : List A)
  | addSystemStats (x : S)
  | addHTTPCheckResult (x : H)
  | addDockerContainerStats (xs : List D)

def applyStoreOp {A S H D : Type} (sm : StorageManager A S H D) :
    StoreOp A S H D → StorageManager A S H D
  | .addAlert a => AddAlert sm a
  | .addAlerts xs => AddAlerts sm xs
  | .addSystemStats x => AddSystemStats sm x
  | .addHTTPCheckResult x => AddHTTPCheckResult sm x
  | .addDockerContainerStats xs => AddDockerContainerStats sm xs

def applyStoreOps {A S H D : Type} (sm : StorageManager A S H D)
    (ops : List (StoreOp A S H D)) : StorageManager A S H D :=
  ops.foldl applyStoreOp sm

/-- The alert entries appended by a sequence of operations, in order. -/
def alertEntries {A S H D : Type} : List (StoreOp A S H D) → List A
  | [] => []
  | .addAlert a :: rest => [a] ++ alertEntries rest
  | .addAlerts xs :: rest => xs ++ alertEntries rest
  | _ :: rest => alertEntries rest

/-- The system-stats entries appended by a sequence of operations. -/
def statsEntries {A S H D : Type} : List (StoreOp A S H D) → List S
  | [] => []
  | .addSystemStats x :: rest => [x] ++ statsEntries rest
  | _ :: rest => statsEntries rest

/-- The HTTP-check entries appended by a sequence of operations. -/
def httpEntries {A S H D : Type} : List (StoreOp A S H D) → List H
  | [] => []
  | .addHTTPCheckResult x :: rest => [x] ++ httpEntries rest
  | _ :: rest => httpEntries rest

/-- The container-stats entries appended by a sequence of operations. -/
def dockerEntries {A S H D : Type} : List (StoreOp A S H D) → List D
  | [] => []
  | .addDockerContainerStats xs :: rest => xs ++ dockerEntries rest
  | _ :: rest => dockerEntries rest

/-- The suffix of the last (at most) `cap` elements of a list. -/
def lastN {α : Type} (cap : Nat) (l : List α) : List α :=
  l.drop (l.length - cap)

lemma lastN_length_le {α : Type} (cap : Nat) (l : List α) :
    (lastN cap l).length ≤ cap := by
  simp only [lastN, List.length_drop]
  omega

lemma lastN_nil {α : Type} (cap : Nat) : lastN cap ([] : List α) = [] := by
  simp [lastN]

/-- The single-append body equals keeping the last `cap` entries, provided
the list already respects the capacity bound and the capacity is positive. -/
lemma addOne_lastN {α : Type} (cap : Nat) (hcap : 1 ≤ cap) (l : List α)
    (x : α) (h : l.length ≤ cap) :
    (if cap < (l ++ [x]).length then (l ++ [x]).drop 1 else l ++ [x]) =
      lastN cap (l ++ [x]) := by
  by_cases hx : cap < (l ++ [x]).length
  · rw [if_pos hx]
    unfold lastN
    congr 1
    simp only [List.length_append, List.length_singleton] at hx ⊢
    omega
  · rw [if_neg hx]
    unfold lastN
    rw [show (l ++ [x]).length - cap = 0 from by omega, List.drop_zero]

/-- The batch-append body equals keeping the last `cap` entries. -/
lemma addBatch_lastN {α : Type} (cap : Nat) (l xs : List α) :
    (if cap < (l ++ xs).length then
        (l ++ xs).drop ((l ++ xs).length - cap)
      else l ++ xs) = lastN cap (l ++ xs) := by
  by_cases hx : cap < (l ++ xs).length
  · rw [if_pos hx]
    rfl
  · rw [if_neg hx]
    unfold lastN
    rw [show (l ++ xs).length - cap = 0 from by omega, List.drop_zero]

/-- Keeping the last `cap` entries is stable under further appends: the
evicted prefix never matters again. -/
lemma lastN_append {α : Type} (cap : Nat) (l xs : List α) :
    lastN cap (lastN cap l ++ xs) = lastN cap (l ++ xs) := by
  rcases le_or_lt l.length cap with hle | hlt
  · have h0 : l.length - cap = 0 := by omega
    simp [lastN, h0]
  · unfold lastN
    have hdl : (l.drop (l.length - cap)).length = cap := by
      rw [List.length_drop]
      omega
    rw [List.length_append, hdl, List.length_append]
    rw [show cap + xs.length - cap = xs.length from by omega]
    rw [show l.length + xs.length - cap = (l.length - cap) + xs.length from by
      omega]
    rw [← List.drop_drop]
    conv_rhs => rw [List.drop_append_of_le_length
      (show l.length - cap ≤ l.length from by omega)]

lemma AddAlert_spec {A S H D : Type} (sm : StorageManager A S H D) (a : A)
    (hcap : 1 ≤ sm.maxHistorySize) (la : List A)
    (ha : sm.alerts = lastN sm.maxHistorySize la) :
    (AddAlert sm a).alerts = lastN sm.maxHistorySize (la ++ [a]) ∧
    (AddAlert sm a).statsHistory = sm.statsHistory ∧
    (AddAlert sm a).httpHistory = sm.httpHistory ∧
    (AddAlert sm a).dockerHistory = sm.dockerHistory ∧
    (AddAlert sm a).maxHistorySize = sm.maxHistorySize := by
  refine ⟨?_, rfl, rfl, rfl, rfl⟩
  show (if sm.maxHistorySize < (sm.alerts ++ [a]).length then
      (sm.alerts ++ [a]).drop 1 else sm.alerts ++ [a]) = _
  rw [ha, addOne_lastN sm.maxHistorySize hcap _ a (lastN_length_le _ _),
    lastN_append]

lemma AddAlerts_spec {A S H D : Type} (sm : StorageManager A S H D)
    (xs : List A) (la : List A)
    (ha : sm.alerts = lastN sm.maxHistorySize la) :
    (AddAlerts sm xs).alerts = lastN sm.maxHistorySize (la ++ xs) ∧
    (AddAlerts sm xs).statsHistory = sm.statsHistory ∧
    (AddAlerts sm xs).httpHistory = sm.httpHistory ∧
    (AddAlerts sm xs).dockerHistory = sm.dockerHistory ∧
    (AddAlerts sm xs).maxHistorySize = sm.maxHistorySize := by
  unfold AddAlerts
  by_cases hz : xs.length = 0
  · have hnil : xs = [] := List.length_eq_zero.mp hz
    rw [if_pos hz]
    subst hnil
    rw [List.append_nil]
    exact ⟨ha, rfl, rfl, rfl, rfl⟩
  · rw [if_neg hz]
    refine ⟨?_, rfl, rfl, rfl, rfl⟩
    show (if sm.maxHistorySize < (sm.alerts ++ xs).length then
        (sm.alerts ++ xs).drop ((sm.alerts ++ xs).length - sm.maxHistorySize)
      else sm.alerts ++ xs) = _
    rw [ha, addBatch_lastN, lastN_append]

lemma AddSystemStats_spec {A S H D : Type} (sm : StorageManager A S H D)
    (x : S) (hcap : 1 ≤ sm.maxHistorySize) (ls : List S)
    (hs : sm.statsHistory = lastN sm.maxHistorySize ls) :
    (AddSystemStats sm x).statsHistory = lastN sm.maxHistorySize (ls ++ [x]) ∧
    (AddSystemStats sm x).alerts = sm.alerts ∧
    (AddSystemStats sm x).httpHistory = sm.httpHistory ∧
    (AddSystemStats sm x).dockerHistory = sm.dockerHistory ∧
    (AddSystemStats sm x).maxHistorySize = sm.maxHistorySize := by
  refine ⟨?_, rfl, rfl, rfl, rfl⟩
  show (if sm.maxHistorySize < (sm.statsHistory ++ [x]).length then
      (sm.statsHistory ++ [x]).drop 1 else sm.statsHistory ++ [x]) = _
  rw [hs, addOne_lastN sm.maxHistorySize hcap _ x (lastN_length_le _ _),
    lastN_append]

lemma AddHTTPCheckResult_spec {A S H D : Type} (sm : StorageManager A S H D)
    (x : H) (hcap : 1 ≤ sm.maxHistorySize) (lh : List H)
    (hh : sm.httpHistory = lastN sm.maxHistorySize lh) :
    (AddHTTPCheckResult sm x).httpHistory =
        lastN sm.maxHistorySize (lh ++ [x]) ∧
    (AddHTTPCheckResult sm x).alerts = sm.alerts ∧
    (AddHTTPCheckResult sm x).statsHistory = sm.statsHistory ∧
    (AddHTTPCheckResult sm x).dockerHistory = sm.dockerHistory ∧
    (AddHTTPCheckResult sm x).maxHistorySize = sm.maxHistorySize := by
  refine ⟨?_, rfl, rfl, rfl, rfl⟩
  show (if sm.maxHistorySize < (sm.httpHistory ++ [x]).length then
      (sm.httpHistory ++ [x]).drop 1 else sm.httpHistory ++ [x]) = _
  rw [hh, addOne_lastN sm.maxHistorySize hcap _ x (lastN_length_le _ _),
    lastN_append]

lemma AddDockerContainerStats_spec {A S H D : Type}
    (sm : StorageManager A S H D) (xs : List D) (ld : List D)
    (hd : sm.dockerHistory = lastN sm.maxHistorySize ld) :
    (AddDockerContainerStats sm xs).dockerHistory =
        lastN sm.maxHistorySize (ld ++ xs) ∧
    (AddDockerContainerStats sm xs).alerts = sm.alerts ∧
    (AddDockerContainerStats sm xs).statsHistory = sm.statsHistory ∧
    (AddDockerContainerStats sm xs).httpHistory = sm.httpHistory ∧
    (AddDockerContainerStats sm xs).maxHistorySize = sm.maxHistorySize := by
  unfold AddDockerContainerStats
  by_cases hz : xs.length = 0
  · have hnil : xs = [] := List.length_eq_zero.mp hz
    rw [if_pos hz]
    subst hnil
    rw [List.append_nil]
    exact ⟨hd, rfl, rfl, rfl, rfl⟩
  · rw [if_neg hz]
    refine ⟨?_, rfl, rfl, rfl, rfl⟩
    show (if sm.maxHistorySize < (sm.dockerHistory ++ xs).length then
        (sm.dockerHistory ++ xs).drop
          ((sm.dockerHistory ++ xs).length - sm.maxHistorySize)
      else sm.dockerHistory ++ xs) = _
    rw [hd, addBatch_lastN, lastN_append]

/-- Fold invariant: every category list is the capacity-suffix of the
entries appended to it so far. -/
lemma applyStoreOps_inv {A S H D : Type} (ops : List (StoreOp A S H D))
    (sm : StorageManager A S H D) (hcap : 1 ≤ sm.maxHistorySize)
    (la : List A) (ls : List S) (lh : List H) (ld : List D)
    (ha : sm.alerts = lastN sm.maxHistorySize la)
    (hs : sm.statsHistory = lastN sm.maxHistorySize ls)
    (hh : sm.httpHistory = lastN sm.maxHistorySize lh)
    (hd : sm.dockerHistory = lastN sm.maxHistorySize ld) :
    (applyStoreOps sm ops).maxHistorySize = sm.maxHistorySize ∧
    (applyStoreOps sm ops).alerts =
      lastN sm.maxHistorySize (la ++ alertEntries ops) ∧
    (applyStoreOps sm ops).statsHistory =
      lastN sm.maxHistorySize (ls ++ statsEntries ops) ∧
    (applyStoreOps sm ops).httpHistory =
      lastN sm.maxHistorySize (lh ++ httpEntries ops) ∧
    (applyStoreOps sm ops).dockerHistory =
      lastN sm.maxHistorySize (ld ++ dockerEntries ops) := by
  induction ops generalizing sm la ls lh ld with
  | nil =>
    refine ⟨rfl, ?_, ?_, ?_, ?_⟩ <;>
      simp only [applyStoreOps, List.foldl_nil, alertEntries, statsEntries,
        httpEntries, dockerEntries, List.append_nil]
    exacts [ha, hs, hh, hd]
  | cons op rest ih =>
    have hfold : applyStoreOps sm (op :: rest) =
        applyStoreOps (applyStoreOp sm op) rest := rfl
    match op with
    | .addAlert a =>
      obtain ⟨h1, h2, h3, h4, h5⟩ := AddAlert_spec sm a hcap la ha
      have := ih (AddAlert sm a) (h5 ▸ hcap) (la ++ [a]) ls lh ld
        (h5 ▸ h1) (h5 ▸ (h2.trans hs)) (h5 ▸ (h3.trans hh)) (h5 ▸ (h4.trans hd))
      rw [hfold]
      simpa [alertEntries, statsEntries, httpEntries, dockerEntries, h5,
        List.append_assoc, applyStoreOp] using this
    | .addAlerts xs =>
      obtain ⟨h1, h2, h3, h4, h5⟩ := AddAlerts_spec sm xs la ha
      have := ih (AddAlerts sm xs) (h5 ▸ hcap) (la ++ xs) ls lh ld
        (h5 ▸ h1) (h5 ▸ (h2.trans hs)) (h5 ▸ (h3.trans hh)) (h5 ▸ (h4.trans hd))
      rw [hfold]
      simpa [alertEntries, statsEntries, httpEntries, dockerEntries, h5,
        List.append_assoc, applyStoreOp] using this
    | .addSystemStats x =>
      obtain ⟨h1, h2, h3, h4, h5⟩ := AddSystemStats_spec sm x hcap ls hs
      have := ih (AddSystemStats sm x) (h5 ▸ hcap) la (ls ++ [x]) lh ld
        (h5 ▸ (h2.trans ha)) (h5 ▸ h1) (h5 ▸ (h3.trans hh)) (h5 ▸ (h4.trans hd))
      rw [hfold]
      simpa [alertEntries, statsEntries, httpEntries, dockerEntries, h5,
        List.append_assoc, applyStoreOp] using this
    | .addHTTPCheckResult x =>
      obtain ⟨h1, h2, h3, h4, h5⟩ := AddHTTPCheckResult_spec sm x hcap lh hh
      have := ih (AddHTTPCheckResult sm x) (h5 ▸ hcap) la ls (lh ++ [x]) ld
        (h5 ▸ (h2.trans ha)) (h5 ▸ (h3.trans hs)) (h5 ▸ h1) (h5 ▸ (h4.trans hd))
      rw [hfold]
      simpa [alertEntries, statsEntries, httpEntries, dockerEntries, h5,
        List.append_assoc, applyStoreOp] using this
    | .addDockerContainerStats xs =>
      obtain ⟨h1, h2, h3, h4, h5⟩ := AddDockerContainerStats_spec sm xs ld hd
      have := ih (AddDockerContainerStats sm xs) (h5 ▸ hcap) la ls lh (ld ++ xs)
        (h5 ▸ (h2.trans ha)) (h5 ▸ (h3.trans hs)) (h5 ▸ (h4.trans hh)) (h5 ▸ h1)
      rw [hfold]
      simpa [alertEntries, statsEntries, httpEntries, dockerEntries, h5,
        List.append_assoc, applyStoreOp] using this

lemma NewStorageManager_cap_pos (A S H D : Type) (n : Int) :
    1 ≤ (NewStorageManager A S H D n).maxHistorySize := by
  show 1 ≤ (if n ≤ 0 then (100 : Int) else n).toNat
  by_cases h : n ≤ 0
  · simp [h]
  · simp [h]
    omega

/-- C5: for every category of the `StorageManager` and every sequence of
single or batch appends starting from a fresh store of capacity `N`
(`maxHistorySize`), the stored sequence is exactly the suffix of the last
(at most) `N` appended entries in insertion order — so it never holds more
than `N` entries, and after `N + k` total appended entries exactly the `k`
oldest are absent and the `N` most recent are present in order. -/
theorem storageManager_C5_bounded_fifo {A S H D : Type} (n : Int)
    (ops : List (StoreOp A S H D)) :
    ((applyStoreOps (NewStorageManager A S H D n) ops).alerts =
        lastN (NewStorageManager A S H D n).maxHistorySize
          (alertEntries ops) ∧
      (applyStoreOps (NewStorageManager A S H D n) ops).alerts.length ≤
        (NewStorageManager A S H D n).maxHistorySize) ∧
    ((applyStoreOps (NewStorageManager A S H D n) ops).statsHistory =
        lastN (NewStorageManager A S H D n).maxHistorySize
          (statsEntries ops) ∧
      (applyStoreOps (NewStorageManager A S H D n) ops).statsHistory.length ≤
        (NewStorageManager A S H D n).maxHistorySize) ∧
    ((applyStoreOps (NewStorageManager A S H D n) ops).httpHistory =
        lastN (NewStorageManager A S H D n).maxHistorySize
          (httpEntries ops) ∧
      (applyStoreOps (NewStorageManager A S H D n) ops).httpHistory.length ≤
        (NewStorageManager A S H D n).maxHistorySize) ∧
    ((applyStoreOps (NewStorageManager A S H D n) ops).dockerHistory =
        lastN (NewStorageManager A S H D n).maxHistorySize
          (dockerEntries ops) ∧
      (applyStoreOps (NewStorageManager A S H D n) ops).dockerHistory.length ≤
        (NewStorageManager A S H D n).maxHistorySize) := by
  have hcap := NewStorageManager_cap_pos A S H D n
  obtain ⟨hm, ha, hs, hh, hd⟩ := applyStoreOps_inv ops
    (NewStorageManager A S H D n) hcap [] [] [] []
    (lastN_nil _).symm (lastN_nil _).symm (lastN_nil _).symm (lastN_nil _).symm
  rw [List.nil_append] at ha hs hh hd
  refine ⟨⟨ha, ?_⟩, ⟨hs, ?_⟩, ⟨hh, ?_⟩, ⟨hd, ?_⟩⟩
  · rw [ha]
    exact lastN_length_le _ _
  · rw [hs]
    exact lastN_length_le _ _
  · rw [hh]
    exact lastN_length_le _ _
  · rw [hd]
    exact lastN_length_le _ _

/-! ### Alert dispatcher: `AlertManager` (alert/alert.go)

The wire-level transports (`sendEmail`, `sendMailgun`, `sendTelegram`) are
external collaborators (network and SMTP IO); per the spec interface
`send_via_channel(channel_config, alert) → Error | none` each call's outcome
enters the embedding as an `Option String` argument (`some` an error
message, `none` success).  The embedding additionally records which channels
were attempted. -/

/-- Embedding of `types.EmailConfig`. -/
structure EmailConfig where
  Enabled : Bool
  SMTPHost : String
  SMTPPort : Int
  Username : String
  Password : String
  From : String
  To : String
  UseTLS : Bool
deriving DecidableEq

/-- Embedding of `types.MailgunConfig`. -/
structure MailgunConfig where
  Enabled : Bool
  APIKey : String
  Domain : String
  From : String
  To : String
  BaseURL : String
deriving DecidableEq

/-- Embedding of `types.TelegramConfig`. -/
structure TelegramConfig where
  Enabled : Bool
  BotToken : String
  ChatID : String
deriving DecidableEq

/-- Embedding of `types.AlertingConfig`. -/
structure AlertingConfig where
  Enabled : Bool
  Email : EmailConfig
  Mailgun : MailgunConfig
  Telegram : TelegramConfig
  AlertLevels : List String
  Cooldown : Int
deriving DecidableEq

/-- Embedding of `AlertManager` (alert/alert.go); the Go
`map[string]time.Time` of last-sent instants is an association list. -/
structure AlertManager where
  config : AlertingConfig
  appName : String
  lastSent : List (String × Int)
deriving DecidableEq

/-- Embedding of `AlertManager.shouldSendLevel`: an empty configured list
means send all; otherwise membership in the configured list. -/
def shouldSendLevel (am : AlertManager) (level : String) : Bool :=
  if am.config.AlertLevels.length = 0 then true
  else am.config.AlertLevels.contains level

/-- Go `time.Minute` in nanoseconds (`time.Duration` ticks). -/
def minuteNs : Int := 60000000000

/-- Embedding of `AlertManager.shouldSendCooldown`: no cooldown configured,
or type never sent, or at least `Cooldown` minutes elapsed since the
recorded last send of this type. -/
def shouldSendCooldown (am : AlertManager) (alert : Alert) (now : Int) :
    Bool :=
  if am.config.Cooldown ≤ 0 then true
  else
    match am.lastSent.lookup alert.Type' with
    | none => true
    | some lastSentAt =>
        decide (am.config.Cooldown * minuteNs ≤ now - lastSentAt)

/-- The three notification channels of `AlertManager.SendAlert`. -/
inductive Channel where
  | email
  | mailgun
  | telegram
deriving DecidableEq

/-- Result of one `SendAlert` call: the updated manager, the channels whose
transport was invoked, the accumulated per-channel error strings (the Go
`errors` slice), and the returned error. -/
structure SendResult where
  manager : AlertManager
  attempted : List Channel
  errors : List String
  returnedError : Option String
deriving DecidableEq

/-- Embedding of `AlertManager.SendAlert` (alert/alert.go): filter by
enabled flag, level and cooldown; then attempt every enabled channel
independently, collecting failures; stamp `lastSent[alert.Type]` regardless
of channel outcomes; return an aggregate error iff any channel failed. -/
def SendAlert (am : AlertManager) (alert : Alert) (now : Int)
    (emailErr mailgunErr telegramErr : Option String) : SendResult :=
  if !am.config.Enabled then ⟨am, [], [], none⟩
  else if !shouldSendLevel am alert.Level then ⟨am, [], [], none⟩
  else if !shouldSendCooldown am alert now then ⟨am, [], [], none⟩
  else
    let attempted1 : List Channel :=
      if am.config.Email.Enabled then [Channel.email] else []
    let errors1 : List String :=
      if am.config.Email.Enabled then
        match emailErr with
        | some e => ["email: " ++ e]
        | none => []
      else []
    let attempted2 := attempted1 ++
      (if am.config.Mailgun.Enabled then [Channel.mailgun] else [])
    let errors2 := errors1 ++
      (if am.config.Mailgun.Enabled then
        match mailgunErr with
        | some e => ["mailgun: " ++ e]
        | none => []
      else [])
    let attempted3 := attempted2 ++
      (if am.config.Telegram.Enabled then [Channel.telegram] else [])
    let errors3 := errors2 ++
      (if am.config.Telegram.Enabled then
        match telegramErr with
        | some e => ["telegram: " ++ e]
        | none => []
      else [])
    let am' := { am with lastSent :=
      (alert.Type', now) :: am.lastSent.filter (fun p => !(p.1 == alert.Type')) }
    let returnedError : Option String :=
      if 0 < errors3.length then
        some ("failed to send alerts: " ++ String.intercalate "; " errors3)
      else none
    ⟨am', attempted3, errors3, returnedError⟩

def allChannels : List Channel := [Channel.email, Channel.mailgun, Channel.telegram]

def channelEnabled (config : AlertingConfig) : Channel → Bool
  | .email => config.Email.Enabled
  | .mailgun => config.Mailgun.Enabled
  | .telegram => config.Telegram.Enabled

def channelErr (emailErr mailgunErr telegramErr : Option String) :
    Channel → Option String
  | .email => emailErr
  | .mailgun => mailgunErr
  | .telegram => telegramErr

def channelName : Channel → String
  | .email => "email"
  | .mailgun => "mailgun"
  | .telegram => "telegram"

lemma SendAlert_manager_lastSent (am : AlertManager) (a : Alert) (now : Int)
    (e m g : Option String) (hEn : am.config.Enabled = true)
    (hLvl : shouldSendLevel am a.Level = true)
    (hCd : shouldSendCooldown am a now = true) :
    (SendAlert am a now e m g).manager.lastSent =
      (a.Type', now) :: am.lastSent.filter (fun p => !(p.1 == a.Type')) ∧
    (SendAlert am a now e m g).manager.config = am.config := by
  unfold SendAlert
  rw [hEn, hLvl, hCd]
  simp

lemma SendAlert_cooldown_noop (am : AlertManager) (a : Alert) (now : Int)
    (e m g : Option String) (h : shouldSendCooldown am a now = false) :
    SendAlert am a now e m g = ⟨am, [], [], none⟩ := by
  unfold SendAlert
  by_cases hE : am.config.Enabled <;>
    by_cases hL : shouldSendLevel am a.Level <;> simp [hE, hL, h]

/-- C6: if a positive cooldown has not elapsed since the recorded last-sent
instant of an alert type (here recorded by a first successful-filter call),
a later `SendAlert` call for the same type sends through no channel, leaves
the manager unchanged and returns no error; and with `Cooldown ≤ 0` or for a
type never recorded, the cooldown check never suppresses. -/
theorem alertManager_C6_cooldown (am : AlertManager) (a1 a2 : Alert)
    (t1 t2 : Int) (e1 m1 g1 e2 m2 g2 : Option String)
    (hcd : 0 < am.config.Cooldown)
    (hEn : am.config.Enabled = true)
    (hLvl : shouldSendLevel am a1.Level = true)
    (hCool : shouldSendCooldown am a1 t1 = true)
    (hty : a2.Type' = a1.Type')
    (hwin : t2 - t1 < am.config.Cooldown * minuteNs) :
    ((SendAlert (SendAlert am a1 t1 e1 m1 g1).manager a2 t2 e2 m2
        g2).attempted = [] ∧
      (SendAlert (SendAlert am a1 t1 e1 m1 g1).manager a2 t2 e2 m2
        g2).manager = (SendAlert am a1 t1 e1 m1 g1).manager ∧
      (SendAlert (SendAlert am a1 t1 e1 m1 g1).manager a2 t2 e2 m2
        g2).returnedError = none) ∧
    (∀ (am' : AlertManager) (a : Alert) (now : Int),
        am'.config.Cooldown ≤ 0 ∨ am'.lastSent.lookup a.Type' = none →
        shouldSendCooldown am' a now = true) := by
  constructor
  · obtain ⟨hls, hcfg⟩ :=
      SendAlert_manager_lastSent am a1 t1 e1 m1 g1 hEn hLvl hCool
    have hcd2 : shouldSendCooldown (SendAlert am a1 t1 e1 m1 g1).manager a2
        t2 = false := by
      unfold shouldSendCooldown
      rw [hcfg, hls, hty]
      rw [if_neg (by omega : ¬ am.config.Cooldown ≤ 0)]
      simp only [List.lookup, beq_self_eq_true]
      simp only [decide_eq_false_iff_not]
      omega
    rw [SendAlert_cooldown_noop _ _ _ _ _ _ hcd2]
    exact ⟨rfl, rfl, rfl⟩
  · intro am' a now h
    rcases h with h | h
    · simp [shouldSendCooldown, h]
    · by_cases h0 : am'.config.Cooldown ≤ 0 <;>
        simp [shouldSendCooldown, h, h0]

/-- The configuration used to instantiate the dispatcher witnesses. -/
def c6am : AlertManager :=
  { config :=
      { Enabled := true,
        Email := ⟨false, "", 0, "", "", "", "", false⟩,
        Mailgun := ⟨false, "", "", "", "", ""⟩,
        Telegram := ⟨false, "", ""⟩,
        AlertLevels := [],
        Cooldown := 5 },
    appName := "",
    lastSent := [] }

theorem alertManager_C6_witness :
    ((0 : Int) < c6am.config.Cooldown ∧
      c6am.config.Enabled = true ∧
      shouldSendLevel c6am "critical" = true ∧
      shouldSendCooldown c6am ⟨"cpu", "m", "critical", 0⟩ 100 = true ∧
      (100 : Int) + 50 - 100 < c6am.config.Cooldown * minuteNs) ∧
    ((SendAlert (SendAlert c6am ⟨"cpu", "m", "critical", 0⟩ 100 none none
        none).manager ⟨"cpu", "m", "critical", 0⟩ (100 + 50) none none
        none).attempted = [] ∧
      (SendAlert (SendAlert c6am ⟨"cpu", "m", "critical", 0⟩ 100 none none
        none).manager ⟨"cpu", "m", "critical", 0⟩ (100 + 50) none none
        none).manager =
        (SendAlert c6am ⟨"cpu", "m", "critical", 0⟩ 100 none none
          none).manager ∧
      (SendAlert (SendAlert c6am ⟨"cpu", "m", "critical", 0⟩ 100 none none
        none).manager ⟨"cpu", "m", "critical", 0⟩ (100 + 50) none none
        none).returnedError = none) :=
  ⟨⟨by decide, by decide, by decide, by decide, by decide⟩,
   (alertManager_C6_cooldown c6am ⟨"cpu", "m", "critical", 0⟩
      ⟨"cpu", "m", "critical", 0⟩ 100 (100 + 50) none none none none none
      none (by decide) (by decide) (by decide) (by decide) (by decide)
      (by decide)).1⟩

/-- C7: for every alert passing the enabled/level/cooldown filters,
`SendAlert` attempts delivery through exactly the enabled channels (even
when an earlier channel fails, since the outcomes are independent inputs),
accumulates one labeled error per enabled failing channel (naming exactly
the channels that failed), returns no error iff every enabled channel
succeeded, and records the send instant for the alert's type regardless of
the per-channel outcomes. -/
theorem alertManager_C7_fanout (am : AlertManager) (a : Alert) (now : Int)
    (emailErr mailgunErr telegramErr : Option String)
    (hEn : am.config.Enabled = true)
    (hLvl : shouldSendLevel am a.Level = true)
    (hCd : shouldSendCooldown am a now = true) :
    (SendAlert am a now emailErr mailgunErr telegramErr).attempted =
      allChannels.filter (fun c => channelEnabled am.config c) ∧
    (SendAlert am a now emailErr mailgunErr telegramErr).errors =
      (allChannels.filter (fun c => channelEnabled am.config c &&
          (channelErr emailErr mailgunErr telegramErr c).isSome)).map
        (fun c => channelName c ++ ": " ++
          (channelErr emailErr mailgunErr telegramErr c).getD "") ∧
    ((SendAlert am a now emailErr mailgunErr telegramErr).returnedError =
        none ↔
      (SendAlert am a now emailErr mailgunErr telegramErr).errors = []) ∧
    (SendAlert am a now emailErr mailgunErr
        telegramErr).manager.lastSent.lookup a.Type' = some now := by
  unfold SendAlert
  rw [hEn, hLvl, hCd]
  cases hE : am.config.Email.Enabled <;>
    cases hM : am.config.Mailgun.Enabled <;>
    cases hG : am.config.Telegram.Enabled <;>
    cases emailErr <;> cases mailgunErr <;> cases telegramErr <;>
    simp [allChannels, channelEnabled, channelErr, channelName, hE, hM, hG,
      List.lookup]

def c7am : AlertManager :=
  { config :=
      { Enabled := true,
        Email := ⟨true, "smtp", 25, "u", "p", "f", "t", false⟩,
        Mailgun := ⟨false, "", "", "", "", ""⟩,
        Telegram := ⟨true, "tok", "chat"⟩,
        AlertLevels := [],
        Cooldown := 0 },
    appName := "Monic",
    lastSent := [] }

theorem alertManager_C7_witness :
    (c7am.config.Enabled = true ∧
      shouldSendLevel c7am "critical" = true ∧
      shouldSendCooldown c7am ⟨"cpu", "m", "critical", 5⟩ 5 = true) ∧
    ((SendAlert c7am ⟨"cpu", "m", "critical", 5⟩ 5 (some "boom") none
        none).attempted =
      allChannels.filter (fun c => channelEnabled c7am.config c) ∧
      (SendAlert c7am ⟨"cpu", "m", "critical", 5⟩ 5 (some "boom") none
        none).errors =
        (allChannels.filter (fun c => channelEnabled c7am.config c &&
            (channelErr (some "boom") none none c).isSome)).map
          (fun c => channelName c ++ ": " ++
            (channelErr (some "boom") none none c).getD "") ∧
      ((SendAlert c7am ⟨"cpu", "m", "critical", 5⟩ 5 (some "boom") none
          none).returnedError = none ↔
        (SendAlert c7am ⟨"cpu", "m", "critical", 5⟩ 5 (some "boom") none
          none).errors = []) ∧
      (SendAlert c7am ⟨"cpu", "m", "critical", 5⟩ 5 (some "boom") none
        none).manager.lastSent.lookup "cpu" = some 5) :=
  ⟨⟨by decide, by decide, by decide⟩,
   alertManager_C7_fanout c7am ⟨"cpu", "m", "critical", 5⟩ 5 (some "boom")
     none none (by decide) (by decide) (by decide)⟩

/-- C10: when the configured `AlertLevels` list is empty, the level filter
lets every level through; the allow-list only restricts sending when it is
non-empty, in which case exactly the listed levels pass. -/
theorem alertManager_C10_empty_levels (am : AlertManager) (level : String) :
    (am.config.AlertLevels = [] → shouldSendLevel am level = true) ∧
    (shouldSendLevel am level = true ↔
      am.config.AlertLevels = [] ∨ level ∈ am.config.AlertLevels) := by
  constructor
  · intro h
    simp [shouldSendLevel, h]
  · unfold shouldSendLevel
    by_cases h : am.config.AlertLevels.length = 0
    · simp [h, List.length_eq_zero.mp h]
    · have hne : am.config.AlertLevels ≠ [] := by
        intro hh
        exact h (by simp [hh])
      rw [if_neg h]
      simp [hne]

theorem alertManager_C10_witness :
    c6am.config.AlertLevels = [] ∧ shouldSendLevel c6am "info" = true :=
  ⟨by decide, (alertManager_C10_empty_levels c6am "info").1 (by decide)⟩

/-! ### Classification and messages: `StateManager` entry points
(alert/alert.go) and the monitoring cycle (src/unnamed/part_010, package
server).  Go `float64` metric values are modeled as rationals (the spec
requires callers to reject NaN before evaluation); `int(f)` conversion is
truncation toward zero. -/

/-- Embedding of the digit loop of `itoa` (alert/alert.go): the Go code
writes into a 20-byte buffer from the end, so the loop runs at most 20
times; the fuel argument is that buffer size. -/
def itoaLoop : Nat → Nat → String → String
  | 0, _, acc => acc
  | fuel + 1, n, acc =>
      if n = 0 then acc
      else itoaLoop fuel (n / 10)
        (String.singleton (Char.ofNat (48 + n % 10)) ++ acc)

/-- Embedding of `itoa` (alert/alert.go): `0` prints `"0"`; the loop only
runs for positive `n`, so a negative argument yields `""` exactly as in the
Go source. -/
def itoa (n : Int) : String :=
  if n = 0 then "0"
  else itoaLoop 20 n.toNat ""

/-- Go `int(f)` conversion of a `float64`: truncation toward zero. -/
def goInt (q : ℚ) : Int := Int.tdiv q.num (q.den : Int)

/-- Embedding of `formatFloatPrecision` (alert/alert.go); the Go multiplier
loop computes `10^precision` for a positive precision. -/
def formatFloatPrecision (value : ℚ) (precision : Int) : String :=
  if value = 0 then "0.0"
  else
    let intPart : Int := goInt value
    let fracPart : ℚ := value - (intPart : ℚ)
    let fracStr : String :=
      if 0 < precision then
        let multiplier : Int := 10 ^ precision.toNat
        let fracInt : Int := goInt (fracPart * (multiplier : ℚ) + 0.5)
        "." ++ itoa fracInt
      else ""
    itoa intPart ++ fracStr

/-- Embedding of `formatFloat` (alert/alert.go). -/
def formatFloat (value : ℚ) : String := formatFloatPrecision value 1

/-- Embedding of `formatValue` (alert/alert.go). -/
def formatValue (value : ℚ) (unit : String) : String :=
  formatFloat value ++ unit

/-- Embedding of `formatSystemMessage` (alert/alert.go). -/
def formatSystemMessage (metric : String) (currentValue threshold : ℚ)
    (unit : String) : String :=
  metric ++ " is " ++ formatValue currentValue unit ++ " (threshold: " ++
    formatValue threshold unit ++ ")"

/-- Embedding of `formatRecoveryMessage` (alert/alert.go). -/
def formatRecoveryMessage (metric : String) (currentValue threshold : ℚ)
    (unit : String) : String :=
  metric ++ " recovered to " ++ formatValue currentValue unit ++
    " (threshold: " ++ formatValue threshold unit ++ ")"

/-- Embedding of `getSystemAlertMessage` (alert/alert.go); the keys are
ASCII so Go byte indexing agrees with character indexing. -/
def getSystemAlertMessage (alertType : String) (currentValue threshold : ℚ) :
    String :=
  if alertType = "cpu" then
    formatSystemMessage "CPU usage" currentValue threshold "%"
  else if alertType = "memory" then
    formatSystemMessage "Memory usage" currentValue threshold "%"
  else if 5 < alertType.length ∧ alertType.take 5 = "disk_" then
    formatSystemMessage ("Disk usage on " ++ alertType.drop 5) currentValue
      threshold "%"
  else formatSystemMessage alertType currentValue threshold "%"

/-- Embedding of `getSystemRecoveryMessage` (alert/alert.go). -/
def getSystemRecoveryMessage (alertType : String)
    (currentValue threshold : ℚ) : String :=
  if alertType = "cpu" then
    formatRecoveryMessage "CPU usage" currentValue threshold "%"
  else if alertType = "memory" then
    formatRecoveryMessage "Memory usage" currentValue threshold "%"
  else if 5 < alertType.length ∧ alertType.take 5 = "disk_" then
    formatRecoveryMessage ("Disk usage on " ++ alertType.drop 5) currentValue
      threshold "%"
  else formatRecoveryMessage alertType currentValue threshold "%"

example : itoa 255 = "255" := by decide

example : itoa (-3) = "" := by decide

example : goInt (mkRat 51 2) = 25 := by decide

/-- The `StateManager`'s Go `map[string]*types.AlertState` as an association
list; `getOrCreateState` returns the map (extended on a miss) together with
the state for the key, and `setState` writes back the state the Go code
mutates through the pointer. -/
def getOrCreateState (sm : List (String × AlertState)) (alertType : String)
    (now : Int) : List (String × AlertState) × AlertState :=
  match sm.lookup alertType with
  | some state => (sm, state)
  | none =>
      ((alertType, initAlertState alertType now) :: sm,
       initAlertState alertType now)

def setState (sm : List (String × AlertState)) (alertType : String)
    (st : AlertState) : List (String × AlertState) :=
  (alertType, st) :: sm.filter (fun p => !(p.1 == alertType))

/-- Embedding of `StateManager.checkSystemMetric` (alert/alert.go): binary
classification against the threshold, breach/recovery message framing, then
`updateState`. -/
def checkSystemMetric (state : AlertState) (alertType : String)
    (currentValue threshold : ℚ) (now : Int) : AlertState × Option Alert :=
  let currentState := if currentValue ≥ threshold then "critical" else "ok"
  let message :=
    if currentState = "critical" then
      getSystemAlertMessage alertType currentValue threshold
    else
      getSystemRecoveryMessage alertType currentValue threshold
  updateState state alertType currentState message now

/-- Embedding of `types.HTTPCheckResult` (types/types.go). -/
structure HTTPCheckResult where
  Name : String
  URL : String
  StatusCode : Int
  ResponseTime : Int
  Success : Bool
  Error : String
  Timestamp : Int
deriving DecidableEq

/-- Embedding of `StateManager.UpdateHTTPState` (alert/alert.go): per probe
result, classify `"critical"` exactly on failure and feed `updateState`
under the `"http_"`-prefixed key. -/
def UpdateHTTPState (sm : List (String × AlertState))
    (results : List HTTPCheckResult) (now : Int) :
    List (String × AlertState) × List Alert :=
  match results with
  | [] => (sm, [])
  | result :: rest =>
      let stateKey := "http_" ++ result.Name
      let p := getOrCreateState sm stateKey now
      let currentState := if !result.Success then "critical" else "ok"
      let q := updateState p.2 stateKey currentState result.Error now
      let sm2 := setState p.1 stateKey q.1
      let r := UpdateHTTPState sm2 rest now
      (r.1, q.2.toList ++ r.2)

/-- Embedding of `types.MemoryStats` (types/types.go); Go `uint64` sizes as
naturals. -/
structure MemoryStats where
  Total : Nat
  Used : Nat
  Free : Nat
  UsedPercent : ℚ
deriving DecidableEq

/-- Embedding of `types.DiskStats` (types/types.go). -/
structure DiskStats where
  Path : String
  Total : Nat
  Used : Nat
  Free : Nat
  UsedPercent : ℚ
deriving DecidableEq

/-- Embedding of `types.SystemStats` (types/types.go); the Go
`map[string]DiskStats` is a list fixing one iteration order. -/
structure SystemStats where
  Timestamp : Int
  CPUUsage : ℚ
  MemoryUsage : MemoryStats
  DiskUsage : List (String × DiskStats)
deriving DecidableEq

/-- Embedding of `types.SystemChecksConfig` (types/types.go). -/
structure SystemChecksConfig where
  Interval : Int
  CPUThreshold : Int
  MemoryThreshold : Int
  DiskThreshold : Int
  DiskPaths : List String
deriving DecidableEq

/-- The disk loop of `StateManager.UpdateSystemState` (alert/alert.go). -/
def updateSystemStateDisks (sm : List (String × AlertState))
    (diskUsage : List (String × DiskStats)) (diskThreshold : ℚ) (now : Int) :
    List (String × AlertState) × List Alert :=
  match diskUsage with
  | [] => (sm, [])
  | (path, diskStats) :: rest =>
      let key := "disk_" ++ path
      let p := getOrCreateState sm key now
      let q := checkSystemMetric p.2 key diskStats.UsedPercent diskThreshold
        now
      let sm2 := setState p.1 key q.1
      let r := updateSystemStateDisks sm2 rest diskThreshold now
      (r.1, q.2.toList ++ r.2)

/-- Embedding of `StateManager.UpdateSystemState` (alert/alert.go): check
CPU, memory, then each disk path, collecting the produced alerts in that
order; `float64(threshold)` is the integer-to-rational coercion. -/
def UpdateSystemState (sm : List (String × AlertState)) (stats : SystemStats)
    (thresholds : SystemChecksConfig) (now : Int) :
    List (String × AlertState) × List Alert :=
  let pc := getOrCreateState sm "cpu" now
  let qc := checkSystemMetric pc.2 "cpu" stats.CPUUsage
    (thresholds.CPUThreshold : ℚ) now
  let sm1 := setState pc.1 "cpu" qc.1
  let pm := getOrCreateState sm1 "memory" now
  let qm := checkSystemMetric pm.2 "memory" stats.MemoryUsage.UsedPercent
    (thresholds.MemoryThreshold : ℚ) now
  let sm2 := setState pm.1 "memory" qm.1
  let rd := updateSystemStateDisks sm2 stats.DiskUsage
    (thresholds.DiskThreshold : ℚ) now
  (rd.1, qc.2.toList ++ qm.2.toList ++ rd.2)

/-- The state of `MonitorService` touched by `collectSystemStats`
(src/unnamed/part_010, package server): the raw stats history slice, the
pending alerts slice, and the `StateManager`'s key-to-state map. -/
structure MonitorState where
  statsHistory : List SystemStats
  alerts : List Alert
  states : List (String × AlertState)
deriving DecidableEq

/-- Embedding of `MonitorService.collectSystemStats` (src/unnamed/part_010):
`systemMonitor.CollectStats` is an external collaborator, so its outcome
enters as an `Except` argument.  On error the Go method logs and returns —
no history append, no state mutation, no alert; on success it appends to the
100-capped history, runs the state machine and accumulates any alerts. -/
def collectSystemStats (ms : MonitorState)
    (collected : Except String SystemStats) (cfg : SystemChecksConfig)
    (now : Int) : MonitorState :=
  match collected with
  | .error _ => ms
  | .ok stats =>
      let statsHistory := ms.statsHistory ++ [stats]
      let statsHistory :=
        if 100 < statsHistory.length then statsHistory.drop 1
        else statsHistory
      let p := UpdateSystemState ms.states stats cfg now
      let alerts := if 0 < p.2.length then ms.alerts ++ p.2 else ms.alerts
      { statsHistory := statsHistory, alerts := alerts, states := p.1 }

/-- `updateState` always stores the classification it was given as the new
`CurrentState`, on transition and non-transition evaluations alike. -/
lemma updateState_currentState (s : AlertState) (k c m : String)
    (now : Int) : (updateState s k c m now).1.CurrentState = c := by
  by_cases h : s.CurrentState = c
  · have h' : ¬ s.CurrentState ≠ c := by simp [h]
    unfold updateState
    rw [if_neg h']
    by_cases hb : shouldSendAlert
        ⟨s.Type', c, s.ConsecutiveChecks + 1, s.LastAlertSent,
          s.LastStateChange⟩ now = true <;> simp [hb, h]
  · unfold updateState
    rw [if_pos h]
    by_cases hb : shouldSendAlert
        ⟨s.Type', c, 1, s.LastAlertSent, now⟩ now = true <;> simp [hb]

lemma lookup_setState (sm : List (String × AlertState)) (k : String)
    (v : AlertState) : (setState sm k v).lookup k = some v := by
  simp [setState, List.lookup]

/-- C8: classification is total and binary.  `checkSystemMetric` stores
`"critical"` exactly when the current value is at least the threshold and
`"ok"` otherwise; `UpdateHTTPState` stores `"critical"` for a probe result
exactly when its `Success` field is false and `"ok"` otherwise. -/
theorem classification_C8_binary :
    (∀ (s : AlertState) (ty : String) (v t : ℚ) (now : Int),
        ((checkSystemMetric s ty v t now).1.CurrentState = "critical" ↔
          v ≥ t) ∧
        ((checkSystemMetric s ty v t now).1.CurrentState = "ok" ↔
          ¬ v ≥ t)) ∧
    (∀ (sm : List (String × AlertState)) (r : HTTPCheckResult) (now : Int),
        ∃ s', (UpdateHTTPState sm [r] now).1.lookup ("http_" ++ r.Name) =
            some s' ∧
          (s'.CurrentState = "critical" ↔ r.Success = false) ∧
          (s'.CurrentState = "ok" ↔ r.Success = true)) := by
  constructor
  · intro s ty v t now
    by_cases h : v ≥ t
    · simp only [checkSystemMetric, if_pos h]
      rw [updateState_currentState]
      simp [h]
    · simp only [checkSystemMetric, if_neg h]
      rw [updateState_currentState]
      simp [h]
  · intro sm r now
    have hmap : (UpdateHTTPState sm [r] now).1 =
        setState (getOrCreateState sm ("http_" ++ r.Name) now).1
          ("http_" ++ r.Name)
          (updateState (getOrCreateState sm ("http_" ++ r.Name) now).2
            ("http_" ++ r.Name) (if !r.Success then "critical" else "ok")
            r.Error now).1 := rfl
    refine ⟨_, by rw [hmap, lookup_setState], ?_, ?_⟩ <;>
      rw [updateState_currentState] <;> cases hr : r.Success <;> simp

/-- C9: when the resource collaborator fails (`CollectStats` returns an
error), `collectSystemStats` leaves the whole monitoring state unchanged —
no stats-history append, no alert-state creation or mutation, no alert
enqueued. -/
theorem collectSystemStats_C9_error_noop (ms : MonitorState) (err : String)
    (cfg : SystemChecksConfig) (now : Int) :
    collectSystemStats ms (Except.error err) cfg now = ms := rfl

end Monic
